import Mathlib

/-!
Shallow embedding of `src/src/vue-firestore.js` (vue-firestore): the
change-application engine for ordered sequence containers (`collections`),
identity-keyed mappings (`collectionOfObjects`), single-document bindings
(`documents`), the strategy selection of `bind`, and the `$unbind` /
`beforeDestroy` lifecycle, together with the host JavaScript semantics the
code relies on (Array.prototype.splice, Promise one-shot settlement,
property deletion, the console object).
-/

namespace VueFirestore

/-- Global normalization options (`defaultOptions`, consumed by `normalize`):
`keyName` (default "id") and `enumerable` (default true). -/
structure FireOptions where
  keyName : String
  enumerable : Bool
deriving Repr, DecidableEq

/-- Default options of the plugin: key name "id", enumerable true. -/
def defaultOptions : FireOptions := { keyName := "id", enumerable := true }

/-- Document field data, an opaque structured value modelled as a
field-name / field-value listing. -/
abbrev FieldData := List (String × String)

/-- One element of `doc.docChanges()` as consumed by the collection
strategies: the change `type` string, the positional indices, and the
document identity and raw field data (`snapshot.doc.id`, `snapshot.doc.data()`). -/
structure DocChange where
  type : String
  oldIndex : Nat
  newIndex : Nat
  docId : String
  docData : FieldData
deriving Repr, DecidableEq

/-- Modelled from the spec: `normalize` lives in the repository module
`./utils/utils`, which is not present under `src/`. Per the spec (section 4.1)
it produces a value equal to the document's field data with one additional
property named `options.keyName` holding the document's identity, without
mutating the input. -/
def normalizeData (docId : String) (docData : FieldData) (opts : FireOptions) : FieldData :=
  docData ++ [(opts.keyName, docId)]

/-- Normalization of a change-event snapshot, as called by `collections`. -/
def normalize (s : DocChange) (opts : FireOptions) : FieldData :=
  normalizeData s.docId s.docData opts

/-- JS `Array.prototype.splice(i, 0, v)`: insert `v` at index `i`
(an index past the end appends, matching the host clamping). -/
def spliceInsert (l : List α) (i : Nat) (v : α) : List α :=
  l.take i ++ v :: l.drop i

/-- JS `Array.prototype.splice(i, 1)`: remove the element at index `i`
(nothing happens when `i` is out of range). -/
def spliceRemove (l : List α) (i : Nat) : List α :=
  l.take i ++ l.drop (i + 1)

/-- JS `Array.prototype.splice(i, 1, v)`: replace the element at index `i`
with `v`. -/
def spliceReplace (l : List α) (i : Nat) (v : α) : List α :=
  l.take i ++ v :: l.drop (i + 1)

/-- The `switch (snapshot.type)` body of `collections`
(src/src/vue-firestore.js lines 39-56), applied to the ordered container:
added inserts the normalized value at `newIndex`; removed splices one element
out at `oldIndex`; modified with distinct indices removes at `oldIndex` then
inserts the normalized value at `newIndex`; modified with equal indices
replaces in place at `newIndex`; any other type falls to the default branch
and leaves the container untouched. -/
def applySeqEvent (opts : FireOptions) (container : List FieldData) (s : DocChange) :
    List FieldData :=
  match s.type with
  | "added" => spliceInsert container s.newIndex (normalize s opts)
  | "removed" => spliceRemove container s.oldIndex
  | "modified" =>
      if s.oldIndex ≠ s.newIndex then
        spliceInsert (spliceRemove container s.oldIndex) s.newIndex (normalize s opts)
      else
        spliceReplace container s.newIndex (normalize s opts)
  | _ => container

/-- The `doc.docChanges().forEach(...)` loop of `collections`: events of a
notification batch are applied strictly in delivery order, each against the
container state left by the previous one. -/
def applySeqBatch (opts : FireOptions) (container : List FieldData) (evs : List DocChange) :
    List FieldData :=
  evs.foldl (applySeqEvent opts) container

/-- The keyed container of `collectionOfObjects`: a JS object mapping each
document id to its raw field data. -/
abbrev KeyedMap := String → Option FieldData

/-- Reactive keyed insertion, `Vue.set(obj, key, val)`. -/
def vueSet (m : KeyedMap) (k : String) (v : FieldData) : KeyedMap :=
  fun q => if q = k then some v else m q

/-- Reactive keyed deletion, `Vue.delete(obj, key)`. -/
def vueDelete (m : KeyedMap) (k : String) : KeyedMap :=
  fun q => if q = k then none else m q

/-- The `switch (snapshot.type)` body of `collectionOfObjects` (lines 87-99):
added and modified set the entry at `snapshot.doc.id` to the raw
`snapshot.doc.data()` (no normalization, no identity field injected); removed
deletes the entry; any other type leaves the mapping untouched. -/
def applyKeyedEvent (m : KeyedMap) (s : DocChange) : KeyedMap :=
  match s.type with
  | "added" => vueSet m s.docId s.docData
  | "removed" => vueDelete m s.docId
  | "modified" => vueSet m s.docId s.docData
  | _ => m

/-- Settlement state of a host Promise. -/
inductive PromiseState (α : Type) (ε : Type) where
  | pending : PromiseState α ε
  | fulfilled : α → PromiseState α ε
  | rejected : ε → PromiseState α ε
deriving Repr, DecidableEq

/-- Host semantics of the executor's `resolve`: the first settlement wins,
every later call is a no-op. -/
def PromiseState.settleResolve : PromiseState α ε → α → PromiseState α ε
  | .pending, v => .fulfilled v
  | s, _ => s

/-- Host semantics of the executor's `reject`: the first settlement wins,
every later call is a no-op. -/
def PromiseState.settleReject : PromiseState α ε → ε → PromiseState α ε
  | .pending, e => .rejected e
  | s, _ => s

/-- Host semantics of `p.then(f)` for a callback `f` that returns normally:
a fulfillment is mapped through `f`, a rejection passes through. -/
def PromiseState.thenMap : PromiseState α ε → (α → β) → PromiseState β ε
  | .pending, _ => .pending
  | .fulfilled v, f => .fulfilled (f v)
  | .rejected e, _ => .rejected e

/-- Host semantics of `p.catch(g)` for a callback `g` that returns normally:
a rejection is turned into a fulfillment with the value returned by `g`. -/
def PromiseState.catchMap : PromiseState α ε → (ε → α) → PromiseState α ε
  | .pending, _ => .pending
  | .fulfilled v, _ => .fulfilled v
  | .rejected e, g => .fulfilled (g e)

/-- Observable state of one `collections` binding: the bound ordered container
and the completion promise created in `bind`. -/
structure CollectionBinding where
  container : List FieldData
  promise : PromiseState (List FieldData) String
deriving Repr, DecidableEq

/-- The snapshot listener of `collections` (lines 36-63): apply the whole
batch to the container, then call `resolve(container)` -- on every batch, not
only the first. -/
def collectionsOnSnapshot (opts : FireOptions) (b : CollectionBinding) (evs : List DocChange) :
    CollectionBinding :=
  let c := applySeqBatch opts b.container evs
  { container := c, promise := b.promise.settleResolve c }

/-- The error listener of `collections` (lines 64-66): `reject(error)`. -/
def collectionsOnError (b : CollectionBinding) (e : String) : CollectionBinding :=
  { b with promise := b.promise.settleReject e }

/-- A single-document snapshot as delivered to `documents`: the `exists`
flag plus the document identity and field data. -/
structure DocSnapshot where
  docExists : Bool
  docId : String
  docData : FieldData
deriving Repr, DecidableEq

/-- Methods actually present on the host console object. The host console
provides `warn`; it has no member named `warning`. -/
def consoleMethods : List String := ["log", "info", "warn", "error", "debug"]

/-- Host semantics of evaluating `console[m](msg)`: an existing method logs
and returns undefined (`Except.ok none`, with `Option String` standing for a
JS value that is either undefined or an error reason); a missing member is
undefined, and calling undefined throws a TypeError. -/
def callConsole (m : String) (_msg : String) : Except String (Option String) :=
  if consoleMethods.contains m then Except.ok none
  else Except.error ("TypeError: console." ++ m ++ " is not a function")

/-- Observable state of one `documents` binding: whether the owner's
`$firestore` side-table still holds the entry for this key, the bound
property value `vm[key]`, and the completion promise. A rejection reason is
`Option String`: `none` models the JS value undefined. -/
structure DocBinding where
  entryPresent : Bool
  boundValue : Option FieldData
  promise : PromiseState (Option FieldData) (Option String)
deriving Repr, DecidableEq

/-- The snapshot listener of `documents` (lines 127-136). When the document
exists, the normalized value is assigned to `vm[key]` and `resolve(vm[key])`
runs. When it does not exist, `delete vm.$firestore[key]` runs first, and the
code then evaluates `reject(console.warning(...))`: the console has no
`warning` member, so a TypeError is thrown out of the listener and neither
`reject` nor the trailing `resolve(vm[key])` is ever called. The second
component of the result is the exception escaping the listener, if any. -/
def documentsOnSnapshot (opts : FireOptions) (key : String) (b : DocBinding) (d : DocSnapshot) :
    DocBinding × Option String :=
  if d.docExists then
    let v := normalizeData d.docId d.docData opts
    (⟨b.entryPresent, some v, b.promise.settleResolve (some v)⟩, none)
  else
    match callConsole "warning"
        ("The document (" ++ key ++ ") does not exist or permission was denied") with
    | Except.error e => (⟨false, b.boundValue, b.promise⟩, some e)
    | Except.ok ret =>
        let p := (b.promise.settleReject ret).settleResolve b.boundValue
        (⟨false, b.boundValue, p⟩, none)

/-- The error listener of `documents` (lines 137-139): `reject(error)`. -/
def documentsOnError (b : DocBinding) (e : String) : DocBinding :=
  { b with promise := b.promise.settleReject (some e) }

/-- Slice of a Vue instance observed by the lifecycle claims: the
`$firestore` side-table (modelled by its key listing; `none` models the
`null` the teardown hook assigns) and the number of subscription handles
opened by `onSnapshot` calls and never released. -/
structure VmState where
  firestore : Option (List String)
  openSubs : Nat
deriving Repr, DecidableEq

/-- JS `delete obj[key]` on the side-table key listing; deleting an absent
key is a no-op. -/
def jsDeleteKey (tbl : List String) (k : String) : List String :=
  tbl.filter (fun x => x ≠ k)

/-- JS `obj[key] = v` on the side-table key listing: a fresh key is added,
an existing key keeps its place. -/
def jsSetKey (tbl : List String) (k : String) : List String :=
  if tbl.contains k then tbl else tbl ++ [k]

/-- Side effects of `Vue.prototype.$binding` (lines 231-237) as routed
through `bind` into a strategy: the side-table is created when absent, the
raw source is recorded at `key`, and `source.onSnapshot(...)` opens one
subscription whose unsubscribe handle is discarded on the spot (it is never
stored anywhere). -/
def bindingCall (vm : VmState) (key : String) : VmState :=
  { firestore := some (jsSetKey (vm.firestore.getD []) key),
    openSubs := vm.openSubs + 1 }

/-- `Vue.prototype.$unbind` (lines 248-250): the whole body is
`delete this.$firestore[key]`. When the side-table is `null` (after owner
teardown), property deletion on `null` throws a TypeError; otherwise only the
side-table entry is removed, and nothing touches any subscription handle. -/
def unbind (vm : VmState) (key : String) : Except String VmState :=
  match vm.firestore with
  | none => Except.error "TypeError: Cannot convert undefined or null to object"
  | some tbl => Except.ok { firestore := some (jsDeleteKey tbl key), openSubs := vm.openSubs }

/-- The `beforeDestroy` hook (lines 198-206): return immediately when the
side-table is already falsy; otherwise `$unbind` every key still present
(each call only deletes its side-table entry) and finally assign
`this.$firestore = null`. The count of open subscriptions is untouched. -/
def beforeDestroy (vm : VmState) : VmState :=
  match vm.firestore with
  | none => vm
  | some _ => { firestore := none, openSubs := vm.openSubs }

/-- Capability view of a raw source reference: whether it exposes a truthy
`where` member, the probe `bind` uses to recognize a collection query. -/
structure SourceRef where
  hasWhere : Bool
deriving Repr, DecidableEq

/-- The `source` argument of `bind`: either a raw reference, or an object
carrying a `ref` key that bundles the reference with an `objects` flag
(and optional resolve and reject callbacks), per lines 156-163. -/
inductive BindSource where
  | plain (r : SourceRef)
  | refDescriptor (r : SourceRef) (objects : Bool)
deriving Repr, DecidableEq

/-- The sync strategy `bind` dispatches to. -/
inductive SyncMode where
  | keyed
  | sequence
  | document
deriving Repr, DecidableEq

/-- Strategy selection of `bind` (lines 151-173). `objects` starts as
`params.objects ? true : null`; when the source is a ref-descriptor,
`objects` is reassigned to `source.objects ? true : null` -- replacing the
params flag -- and the source is unwrapped to `source.ref`. Then: keyed mode
if `objects` is truthy, else sequence mode if the unwrapped source has a
truthy `where`, else document mode. -/
def classifySource (source : BindSource) (paramsObjects : Bool) : SyncMode :=
  let objects :=
    match source with
    | .plain _ => paramsObjects
    | .refDescriptor _ descObjects => descObjects
  let r :=
    match source with
    | .plain r => r
    | .refDescriptor r _ => r
  if objects then .keyed
  else if r.hasWhere then .sequence
  else .document

/-- The flag that actually decides keyed mode in `classifySource`: the
descriptor flag for a ref-wrapped source, the params flag otherwise. -/
def effectiveObjects (source : BindSource) (paramsObjects : Bool) : Bool :=
  match source with
  | .plain _ => paramsObjects
  | .refDescriptor _ descObjects => descObjects

/-- The reference a source classifies by: the unwrapped `source.ref` for a
ref-wrapped source, the source itself otherwise. -/
def sourceRefOf (source : BindSource) : SourceRef :=
  match source with
  | .plain r => r
  | .refDescriptor r _ => r

/-- Lines 175-177: for a ref-wrapped source `bind` returns
`binding.then(res => resolve(res)).catch(err => reject(err))`, where
`resolve` and `reject` are the caller-supplied callbacks (defaulted to
no-ops, so the guard `resolve || reject` is always taken in this form). -/
def refWrappedReturn (binding : PromiseState α ε) (res : α → β) (rej : ε → β) :
    PromiseState β ε :=
  (binding.thenMap res).catchMap rej

/-- Added event at `newIndex` for identity `id`, used by concrete scenarios;
the unused old index is the sentinel 0 and the field data names the identity. -/
def evAdd (id : String) (n : Nat) : DocChange :=
  { type := "added", oldIndex := 0, newIndex := n, docId := id, docData := [("v", id)] }

/-- Removed event at `oldIndex` for identity `id`. -/
def evRemove (id : String) (o : Nat) : DocChange :=
  { type := "removed", oldIndex := o, newIndex := 0, docId := id, docData := [("v", id)] }

/-- Modified event moving `oldIndex` to `newIndex` for identity `id`. -/
def evModify (id : String) (o n : Nat) : DocChange :=
  { type := "modified", oldIndex := o, newIndex := n, docId := id, docData := [("w", id)] }

/-! Branch lemmas: how the two switch statements reduce on each change type. -/

theorem applySeqEvent_added (opts : FireOptions) (c : List FieldData) (s : DocChange)
    (h : s.type = "added") :
    applySeqEvent opts c s = spliceInsert c s.newIndex (normalize s opts) := by
  unfold applySeqEvent; split <;> simp_all

theorem applySeqEvent_removed (opts : FireOptions) (c : List FieldData) (s : DocChange)
    (h : s.type = "removed") :
    applySeqEvent opts c s = spliceRemove c s.oldIndex := by
  unfold applySeqEvent; split <;> simp_all

theorem applySeqEvent_modified (opts : FireOptions) (c : List FieldData) (s : DocChange)
    (h : s.type = "modified") :
    applySeqEvent opts c s =
      if s.oldIndex ≠ s.newIndex then
        spliceInsert (spliceRemove c s.oldIndex) s.newIndex (normalize s opts)
      else
        spliceReplace c s.newIndex (normalize s opts) := by
  unfold applySeqEvent; split <;> simp_all

theorem applySeqEvent_default (opts : FireOptions) (c : List FieldData) (s : DocChange)
    (h₁ : s.type ≠ "added") (h₂ : s.type ≠ "removed") (h₃ : s.type ≠ "modified") :
    applySeqEvent opts c s = c := by
  unfold applySeqEvent; split <;> simp_all

theorem applyKeyedEvent_added (m : KeyedMap) (s : DocChange) (h : s.type = "added") :
    applyKeyedEvent m s = vueSet m s.docId s.docData := by
  unfold applyKeyedEvent; split <;> simp_all

theorem applyKeyedEvent_modified (m : KeyedMap) (s : DocChange) (h : s.type = "modified") :
    applyKeyedEvent m s = vueSet m s.docId s.docData := by
  unfold applyKeyedEvent; split <;> simp_all

theorem applyKeyedEvent_removed (m : KeyedMap) (s : DocChange) (h : s.type = "removed") :
    applyKeyedEvent m s = vueDelete m s.docId := by
  unfold applyKeyedEvent; split <;> simp_all

theorem applyKeyedEvent_default (m : KeyedMap) (s : DocChange)
    (h₁ : s.type ≠ "added") (h₂ : s.type ≠ "removed") (h₃ : s.type ≠ "modified") :
    applyKeyedEvent m s = m := by
  unfold applyKeyedEvent; split <;> simp_all

/-! Positional lemmas for the splice primitives. -/

theorem spliceInsert_length (l : List α) (i : Nat) (v : α) (hi : i ≤ l.length) :
    (spliceInsert l i v).length = l.length + 1 := by
  simp [spliceInsert]; omega

theorem spliceInsert_getElem?_lt (l : List α) (i p : Nat) (v : α)
    (hi : i ≤ l.length) (hp : p < i) :
    (spliceInsert l i v)[p]? = l[p]? := by
  have ht : (l.take i).length = i := by simp [Nat.min_eq_left hi]
  simp [spliceInsert, List.getElem?_append, ht, hp, List.getElem?_take]

theorem spliceInsert_getElem?_self (l : List α) (i : Nat) (v : α) (hi : i ≤ l.length) :
    (spliceInsert l i v)[i]? = some v := by
  have ht : (l.take i).length = i := by simp [Nat.min_eq_left hi]
  rw [spliceInsert, List.getElem?_append, ht]
  simp

theorem spliceInsert_getElem?_ge (l : List α) (i p : Nat) (v : α)
    (hi : i ≤ l.length) (hp : i ≤ p) :
    (spliceInsert l i v)[p + 1]? = l[p]? := by
  have ht : (l.take i).length = i := by simp [Nat.min_eq_left hi]
  have h1 : ¬ (p + 1 < i) := by omega
  have h2 : p + 1 - i = (p - i) + 1 := by omega
  rw [spliceInsert, List.getElem?_append, ht]
  simp only [h1, if_false, h2, List.getElem?_cons_succ, List.getElem?_drop]
  rw [Nat.add_sub_cancel' hp]

theorem spliceRemove_length (l : List α) (i : Nat) (hi : i < l.length) :
    (spliceRemove l i).length = l.length - 1 := by
  simp [spliceRemove]; omega

theorem spliceRemove_getElem?_lt (l : List α) (i p : Nat)
    (hi : i ≤ l.length) (hp : p < i) :
    (spliceRemove l i)[p]? = l[p]? := by
  have ht : (l.take i).length = i := by simp [Nat.min_eq_left hi]
  simp [spliceRemove, List.getElem?_append, ht, hp, List.getElem?_take]

theorem spliceRemove_getElem?_ge (l : List α) (i p : Nat)
    (hi : i ≤ l.length) (hp : i ≤ p) :
    (spliceRemove l i)[p]? = l[p + 1]? := by
  have ht : (l.take i).length = i := by simp [Nat.min_eq_left hi]
  have h1 : ¬ (p < i) := by omega
  rw [spliceRemove, List.getElem?_append, ht]
  simp only [h1, if_false, List.getElem?_drop]
  congr 1
  omega

theorem spliceReplace_length (l : List α) (i : Nat) (v : α) (hi : i < l.length) :
    (spliceReplace l i v).length = l.length := by
  simp [spliceReplace]; omega

theorem spliceReplace_getElem?_self (l : List α) (i : Nat) (v : α) (hi : i ≤ l.length) :
    (spliceReplace l i v)[i]? = some v := by
  have ht : (l.take i).length = i := by simp [Nat.min_eq_left hi]
  rw [spliceReplace, List.getElem?_append, ht]
  simp

theorem spliceReplace_getElem?_lt (l : List α) (i p : Nat) (v : α)
    (hi : i ≤ l.length) (hp : p < i) :
    (spliceReplace l i v)[p]? = l[p]? := by
  have ht : (l.take i).length = i := by simp [Nat.min_eq_left hi]
  simp [spliceReplace, List.getElem?_append, ht, hp, List.getElem?_take]

theorem spliceReplace_getElem?_gt (l : List α) (i p : Nat) (v : α)
    (hi : i ≤ l.length) (hp : i < p) :
    (spliceReplace l i v)[p]? = l[p]? := by
  have ht : (l.take i).length = i := by simp [Nat.min_eq_left hi]
  have h1 : ¬ (p < i) := by omega
  obtain ⟨q, hq⟩ : ∃ q, p - i = q + 1 := ⟨p - i - 1, by omega⟩
  rw [spliceReplace, List.getElem?_append, ht]
  simp only [h1, if_false, hq, List.getElem?_cons_succ, List.getElem?_drop]
  congr 1
  omega

/-! Claim theorems. -/

/-- C1: for every ordered sequence container and every ChangeEvent applied by
the sequence strategy, an Added event inserts the normalized document value at
position newIndex, shifting every element at position ≥ newIndex right by
one, and a Removed event deletes the element at position oldIndex, shifting
every element at position > oldIndex left by one; in particular, from the
empty sequence, Added events for A,B,C at newIndex 0,1,2 in that order yield
[A,B,C], and from a three-element sequence a Removed at oldIndex 1 deletes
the middle element. -/
theorem collections_added_removed_spec (opts : FireOptions) (xs : List FieldData)
    (s : DocChange) :
    (s.type = "added" → s.newIndex ≤ xs.length →
      (applySeqEvent opts xs s).length = xs.length + 1 ∧
      (applySeqEvent opts xs s)[s.newIndex]? = some (normalize s opts) ∧
      (∀ p, p < s.newIndex → (applySeqEvent opts xs s)[p]? = xs[p]?) ∧
      (∀ p, s.newIndex ≤ p → (applySeqEvent opts xs s)[p + 1]? = xs[p]?)) ∧
    (s.type = "removed" → s.oldIndex < xs.length →
      (applySeqEvent opts xs s).length = xs.length - 1 ∧
      (∀ p, p < s.oldIndex → (applySeqEvent opts xs s)[p]? = xs[p]?) ∧
      (∀ p, s.oldIndex ≤ p → (applySeqEvent opts xs s)[p]? = xs[p + 1]?)) ∧
    applySeqBatch defaultOptions [] [evAdd "A" 0, evAdd "B" 1, evAdd "C" 2] =
      [normalize (evAdd "A" 0) defaultOptions, normalize (evAdd "B" 1) defaultOptions,
        normalize (evAdd "C" 2) defaultOptions] ∧
    ∀ a b d : FieldData, applySeqEvent defaultOptions [a, b, d] (evRemove "B" 1) = [a, d] := by
  refine ⟨fun ht hn => ?_, fun ht hn => ?_, rfl, fun a b d => rfl⟩
  · rw [applySeqEvent_added opts xs s ht]
    exact ⟨spliceInsert_length xs s.newIndex _ hn,
      spliceInsert_getElem?_self xs s.newIndex _ hn,
      fun p hp => spliceInsert_getElem?_lt xs s.newIndex p _ hn hp,
      fun p hp => spliceInsert_getElem?_ge xs s.newIndex p _ hn hp⟩
  · rw [applySeqEvent_removed opts xs s ht]
    exact ⟨spliceRemove_length xs s.oldIndex hn,
      fun p hp => spliceRemove_getElem?_lt xs s.oldIndex p (Nat.le_of_lt hn) hp,
      fun p hp => spliceRemove_getElem?_ge xs s.oldIndex p (Nat.le_of_lt hn) hp⟩

/-- Witness for C1: the Added and Removed clauses evaluated at a concrete
two-element container and event. -/
theorem collections_added_removed_spec_witness :
    (applySeqEvent defaultOptions [[("v", "A")], [("v", "C")]] (evAdd "B" 1)).length = 3 ∧
    (applySeqEvent defaultOptions [[("v", "A")], [("v", "C")]] (evAdd "B" 1))[1]? =
      some (normalize (evAdd "B" 1) defaultOptions) ∧
    (applySeqEvent defaultOptions [[("v", "A")], [("v", "C")]] (evAdd "B" 1))[0]? =
      some [("v", "A")] := by
  have h := (collections_added_removed_spec defaultOptions [[("v", "A")], [("v", "C")]]
    (evAdd "B" 1)).1 rfl (by decide)
  refine ⟨h.1, h.2.1, ?_⟩
  have h0 := h.2.2.1 0 (by decide)
  simpa using h0

/-- C2: for every ordered sequence container and every Modified ChangeEvent,
equal indices replace the element at that position with the freshly
normalized value leaving every other position unchanged, and distinct indices
behave exactly as a Removed at oldIndex immediately followed by an Added at
newIndex; from [A,B,C], Modified with oldIndex 0 and newIndex 2 yields
[B,C,A2] where A2 is the updated normalized value. -/
theorem collections_modified_spec (opts : FireOptions) (xs : List FieldData)
    (s : DocChange) :
    (s.type = "modified" → s.oldIndex = s.newIndex → s.newIndex < xs.length →
      (applySeqEvent opts xs s).length = xs.length ∧
      (applySeqEvent opts xs s)[s.newIndex]? = some (normalize s opts) ∧
      (∀ p, p ≠ s.newIndex → (applySeqEvent opts xs s)[p]? = xs[p]?)) ∧
    (s.type = "modified" → s.oldIndex ≠ s.newIndex →
      applySeqEvent opts xs s =
        applySeqEvent opts (applySeqEvent opts xs { s with type := "removed" })
          { s with type := "added" }) ∧
    ∀ a b d : FieldData, applySeqEvent defaultOptions [a, b, d] (evModify "A" 0 2) =
      [b, d, normalize (evModify "A" 0 2) defaultOptions] := by
  refine ⟨fun ht he hn => ?_, fun ht hne => ?_, fun a b d => rfl⟩
  · rw [applySeqEvent_modified opts xs s ht, if_neg (by simpa using he)]
    refine ⟨spliceReplace_length xs s.newIndex _ hn,
      spliceReplace_getElem?_self xs s.newIndex _ (Nat.le_of_lt hn), fun p hp => ?_⟩
    rcases Nat.lt_or_gt_of_ne hp with h | h
    · exact spliceReplace_getElem?_lt xs s.newIndex p _ (Nat.le_of_lt hn) h
    · exact spliceReplace_getElem?_gt xs s.newIndex p _ (Nat.le_of_lt hn) h
  · rw [applySeqEvent_modified opts xs s ht, if_pos hne,
      applySeqEvent_removed opts xs { s with type := "removed" } rfl,
      applySeqEvent_added opts _ { s with type := "added" } rfl]
    rfl

/-- Witness for C2: the replace clause and the move clause evaluated at a
concrete three-element container. -/
theorem collections_modified_spec_witness :
    (applySeqEvent defaultOptions [[("v", "A")], [("v", "B")], [("v", "C")]]
      (evModify "B" 1 1)).length = 3 ∧
    (applySeqEvent defaultOptions [[("v", "A")], [("v", "B")], [("v", "C")]]
      (evModify "B" 1 1))[1]? = some (normalize (evModify "B" 1 1) defaultOptions) ∧
    applySeqEvent defaultOptions [[("v", "A")], [("v", "B")], [("v", "C")]]
        (evModify "A" 0 2) =
      applySeqEvent defaultOptions
        (applySeqEvent defaultOptions [[("v", "A")], [("v", "B")], [("v", "C")]]
          { evModify "A" 0 2 with type := "removed" })
        { evModify "A" 0 2 with type := "added" } := by
  have h := collections_modified_spec defaultOptions
    [[("v", "A")], [("v", "B")], [("v", "C")]] (evModify "B" 1 1)
  have h1 := h.1 rfl rfl (by decide)
  have h2 := (collections_modified_spec defaultOptions
    [[("v", "A")], [("v", "B")], [("v", "C")]] (evModify "A" 0 2)).2.1 rfl (by decide)
  exact ⟨h1.1, h1.2.1, h2⟩

/-- C3 counterexample: the claim says unbind releases the binding's
subscription handle, and that a second unbind after owner teardown is a no-op
with no error. On the code, binding one key opens one subscription whose
handle is discarded; after unbind the side-table entry is gone but the
subscription is still open (one open handle, not zero), and calling unbind
after the teardown hook has nulled the side-table throws a TypeError. -/
theorem unbind_release_counterexample :
    unbind (bindingCall ⟨some [], 0⟩ "docs") "docs" =
      Except.ok (⟨some [], 1⟩ : VmState) ∧
    (bindingCall ⟨some [], 0⟩ "docs").openSubs = 1 ∧
    unbind (beforeDestroy (bindingCall ⟨some [], 0⟩ "docs")) "docs" =
      Except.error "TypeError: Cannot convert undefined or null to object" := by
  exact ⟨rfl, rfl, rfl⟩

/-- C3 amended: unbind removes the owner's side-table entry for the key but
does not release the subscription handle (the handle is discarded at
subscription time and no code path releases it); while the side-table object
still exists a second unbind on the same key is a no-op with no error, but
after owner teardown (which nulls the side-table) unbind throws a TypeError
instead of being a no-op. -/
theorem unbind_amended_spec (vm : VmState) (tbl : List String) (key : String)
    (h : vm.firestore = some tbl) :
    unbind vm key = Except.ok (⟨some (jsDeleteKey tbl key), vm.openSubs⟩ : VmState) ∧
    key ∉ jsDeleteKey tbl key ∧
    unbind (⟨some (jsDeleteKey tbl key), vm.openSubs⟩ : VmState) key =
      Except.ok (⟨some (jsDeleteKey tbl key), vm.openSubs⟩ : VmState) ∧
    unbind (beforeDestroy vm) key =
      Except.error "TypeError: Cannot convert undefined or null to object" := by
  refine ⟨by simp [unbind, h], ?_, ?_, by simp [beforeDestroy, unbind, h]⟩
  · simp [jsDeleteKey, List.mem_filter]
  · simp [unbind, jsDeleteKey, List.filter_filter]

/-- Witness for C3 amended: the amended unbind behavior at a concrete owner
holding one bound key. -/
theorem unbind_amended_spec_witness :
    unbind (⟨some ["a"], 5⟩ : VmState) "a" =
      Except.ok (⟨some (jsDeleteKey ["a"] "a"), 5⟩ : VmState) ∧
    "a" ∉ jsDeleteKey ["a"] "a" ∧
    unbind (⟨some (jsDeleteKey ["a"] "a"), 5⟩ : VmState) "a" =
      Except.ok (⟨some (jsDeleteKey ["a"] "a"), 5⟩ : VmState) ∧
    unbind (beforeDestroy (⟨some ["a"], 5⟩ : VmState)) "a" =
      Except.error "TypeError: Cannot convert undefined or null to object" :=
  unbind_amended_spec ⟨some ["a"], 5⟩ ["a"] "a" rfl

/-- C4: at the failing input -- a single-document binding whose notification
reports non-existence -- the code removes the side-table entry as the claim
says, but the promise is never rejected: the handler evaluates
reject(console.warning(...)), the console has no warning member, and calling
undefined throws a TypeError out of the listener before reject (or the
trailing resolve) can run, leaving the promise pending forever. -/
theorem documents_absence_bug :
    documentsOnSnapshot defaultOptions "doc"
        ⟨true, none, PromiseState.pending⟩ ⟨false, "d1", []⟩ =
      (⟨false, none, PromiseState.pending⟩,
        some "TypeError: console.warning is not a function") ∧
    consoleMethods.contains "warning" = false ∧
    consoleMethods.contains "warn" = true := by
  exact ⟨rfl, rfl, rfl⟩

/-- C5 counterexample: the claim says a set objects option forces keyed mode
regardless of source shape, yet calling bind with options.objects set and a
ref-descriptor source whose descriptor lacks the objects flag selects
document mode, because the descriptor's flag replaces the options flag. -/
theorem classify_objects_counterexample :
    classifySource (BindSource.refDescriptor ⟨false⟩ false) true = SyncMode.document ∧
    SyncMode.document ≠ SyncMode.keyed := by
  exact ⟨rfl, by decide⟩

/-- C5 amended: the flag that decides keyed mode is options.objects for a
plain source and the descriptor's own objects flag for a ref-wrapped source
(the descriptor's flag replaces the options flag, even when unset); if that
effective flag is set keyed mode is chosen regardless of source shape,
otherwise a source exposing where selects sequence mode, otherwise document
mode; for a ref-wrapped source the options flag is irrelevant. -/
theorem classify_amended_spec (source : BindSource) (p : Bool) :
    (effectiveObjects source p = true → classifySource source p = SyncMode.keyed) ∧
    (effectiveObjects source p = false → (sourceRefOf source).hasWhere = true →
      classifySource source p = SyncMode.sequence) ∧
    (effectiveObjects source p = false → (sourceRefOf source).hasWhere = false →
      classifySource source p = SyncMode.document) ∧
    ∀ (r : SourceRef) (d q : Bool),
      classifySource (BindSource.refDescriptor r d) p =
        classifySource (BindSource.refDescriptor r d) q := by
  cases source with
  | plain r =>
      refine ⟨?_, ?_, ?_, fun r d q => rfl⟩ <;> intros <;>
        simp_all [classifySource, effectiveObjects, sourceRefOf]
  | refDescriptor r d =>
      refine ⟨?_, ?_, ?_, fun r d q => rfl⟩ <;> intros <;>
        simp_all [classifySource, effectiveObjects, sourceRefOf]

/-- Witness for C5 amended: a ref-wrapped query source without the descriptor
flag classifies as sequence mode even though the options flag is set, and the
options flag is irrelevant for ref-wrapped sources. -/
theorem classify_amended_spec_witness :
    classifySource (BindSource.refDescriptor ⟨true⟩ false) true = SyncMode.sequence ∧
    classifySource (BindSource.refDescriptor ⟨true⟩ false) true =
      classifySource (BindSource.refDescriptor ⟨true⟩ false) false := by
  have h := classify_amended_spec (BindSource.refDescriptor ⟨true⟩ false) true
  exact ⟨h.2.1 rfl rfl, h.2.2.2 ⟨true⟩ false false⟩

/-- C6: for every keyed mapping, an Added or Modified event sets the entry at
the document id to the raw field data with no identity field injected, and a
Removed event deletes the entry; applying Added then Modified for the same
documentId leaves exactly one entry under that key holding the latest data,
and a subsequent Removed leaves no residual entry, all other keys staying
untouched throughout. -/
theorem keyed_mapping_spec (m : KeyedMap) (k : String) (s₁ s₂ s₃ : DocChange)
    (h₁ : s₁.type = "added") (h₂ : s₂.type = "modified") (h₃ : s₃.type = "removed")
    (hk₁ : s₁.docId = k) (hk₂ : s₂.docId = k) (hk₃ : s₃.docId = k) :
    applyKeyedEvent m s₁ k = some s₁.docData ∧
    applyKeyedEvent (applyKeyedEvent m s₁) s₂ k = some s₂.docData ∧
    (∀ q, q ≠ k → applyKeyedEvent (applyKeyedEvent m s₁) s₂ q = m q) ∧
    applyKeyedEvent (applyKeyedEvent (applyKeyedEvent m s₁) s₂) s₃ k = none ∧
    (∀ q, q ≠ k →
      applyKeyedEvent (applyKeyedEvent (applyKeyedEvent m s₁) s₂) s₃ q = m q) := by
  rw [applyKeyedEvent_added m s₁ h₁]
  rw [applyKeyedEvent_modified _ s₂ h₂]
  rw [applyKeyedEvent_removed _ s₃ h₃]
  rw [hk₁, hk₂, hk₃]
  refine ⟨by simp [vueSet], by simp [vueSet], fun q hq => by simp [vueSet, hq],
    by simp [vueDelete], fun q hq => by simp [vueSet, vueDelete, hq]⟩

/-- Witness for C6: the keyed add, update, remove sequence for one concrete
document id over an initially populated mapping. -/
theorem keyed_mapping_spec_witness :
    applyKeyedEvent (fun _ => none) (evAdd "X" 0) "X" = some (evAdd "X" 0).docData ∧
    applyKeyedEvent (applyKeyedEvent (fun _ => none) (evAdd "X" 0)) (evModify "X" 0 0) "X" =
      some (evModify "X" 0 0).docData ∧
    applyKeyedEvent (applyKeyedEvent (fun _ => none) (evAdd "X" 0)) (evModify "X" 0 0) "Y" =
      none ∧
    applyKeyedEvent
      (applyKeyedEvent (applyKeyedEvent (fun _ => none) (evAdd "X" 0)) (evModify "X" 0 0))
      (evRemove "X" 0) "X" = none := by
  have h := keyed_mapping_spec (fun _ => none) "X" (evAdd "X" 0) (evModify "X" 0 0)
    (evRemove "X" 0) rfl rfl rfl rfl rfl rfl
  exact ⟨h.1, h.2.1, h.2.2.1 "Y" (by decide), h.2.2.2.1⟩

/-- C7: for every collection-mode binding, the container is mutated on every
notification batch and resolve runs after the batch is applied -- a still
pending promise fulfills with the freshly mutated container whatever batch
this is -- yet the promise settles at most once: after a first fulfillment,
an error notification leaves the promise fulfilled with its original value
while later batches keep mutating the container. -/
theorem collections_promise_spec (opts : FireOptions) (b : CollectionBinding)
    (v : List FieldData) (e : String) (evs evs₂ : List DocChange) :
    (collectionsOnSnapshot opts b evs).container = applySeqBatch opts b.container evs ∧
    (b.promise = PromiseState.pending →
      (collectionsOnSnapshot opts b evs).promise =
        PromiseState.fulfilled (applySeqBatch opts b.container evs)) ∧
    (b.promise = PromiseState.fulfilled v →
      (collectionsOnError b e).promise = PromiseState.fulfilled v ∧
      (collectionsOnSnapshot opts (collectionsOnError b e) evs₂).container =
        applySeqBatch opts b.container evs₂ ∧
      (collectionsOnSnapshot opts (collectionsOnError b e) evs₂).promise =
        PromiseState.fulfilled v) := by
  refine ⟨rfl, fun h => ?_, fun h => ?_⟩
  · simp [collectionsOnSnapshot, h, PromiseState.settleResolve]
  · refine ⟨?_, rfl, ?_⟩ <;>
      simp [collectionsOnError, collectionsOnSnapshot, h,
        PromiseState.settleReject, PromiseState.settleResolve]

/-- Witness for C7: a binding fulfilled with a one-element container receives
an error and then another batch; the promise state never changes while the
container mutates. -/
theorem collections_promise_spec_witness :
    (collectionsOnError ⟨[], PromiseState.fulfilled [[("v", "A")]]⟩ "boom").promise =
      PromiseState.fulfilled [[("v", "A")]] ∧
    (collectionsOnSnapshot defaultOptions
        (collectionsOnError ⟨[], PromiseState.fulfilled [[("v", "A")]]⟩ "boom")
        [evAdd "B" 0]).container =
      applySeqBatch defaultOptions [] [evAdd "B" 0] ∧
    (collectionsOnSnapshot defaultOptions
        (collectionsOnError ⟨[], PromiseState.fulfilled [[("v", "A")]]⟩ "boom")
        [evAdd "B" 0]).promise =
      PromiseState.fulfilled [[("v", "A")]] := by
  exact (collections_promise_spec defaultOptions ⟨[], PromiseState.fulfilled [[("v", "A")]]⟩
    [[("v", "A")]] "boom" [] [evAdd "B" 0]).2.2 rfl

/-- C8: batch application to a sequence container is deterministic -- two runs
from the same initial state over the same delivery order yield the same final
container -- and events are consumed strictly in delivery order, each against
the state left by the previous one (the batch function decomposes over cons
and append with no hidden state). -/
theorem batch_determinism_spec (opts : FireOptions) (c c₂ : List FieldData)
    (evs evs₂ : List DocChange) :
    (c = c₂ → evs = evs₂ → applySeqBatch opts c evs = applySeqBatch opts c₂ evs₂) ∧
    applySeqBatch opts c (evs ++ evs₂) =
      applySeqBatch opts (applySeqBatch opts c evs) evs₂ ∧
    ∀ s, applySeqBatch opts c (s :: evs) =
      applySeqBatch opts (applySeqEvent opts c s) evs := by
  refine ⟨fun h1 h2 => by rw [h1, h2], ?_, fun s => rfl⟩
  simp [applySeqBatch, List.foldl_append]

/-- Witness for C8: two runs over a concrete mixed batch from the same
initial container agree, and the batch splits at an append boundary. -/
theorem batch_determinism_spec_witness :
    applySeqBatch defaultOptions [] [evAdd "A" 0, evModify "A" 0 0, evRemove "A" 0] =
      applySeqBatch defaultOptions [] [evAdd "A" 0, evModify "A" 0 0, evRemove "A" 0] ∧
    applySeqBatch defaultOptions [] ([evAdd "A" 0] ++ [evModify "A" 0 0]) =
      applySeqBatch defaultOptions (applySeqBatch defaultOptions [] [evAdd "A" 0])
        [evModify "A" 0 0] := by
  have h := batch_determinism_spec defaultOptions [] []
    [evAdd "A" 0, evModify "A" 0 0, evRemove "A" 0] [evModify "A" 0 0]
  exact ⟨(batch_determinism_spec defaultOptions [] []
    [evAdd "A" 0, evModify "A" 0 0, evRemove "A" 0]
    [evAdd "A" 0, evModify "A" 0 0, evRemove "A" 0]).1 rfl rfl,
    (batch_determinism_spec defaultOptions [] [] [evAdd "A" 0] [evModify "A" 0 0]).2.1⟩

/-- C9: a ChangeEvent whose type is none of added, removed, modified falls to
the default switch branch in both collection strategies: the ordered
container and the keyed mapping are left completely unchanged and no error is
raised. -/
theorem unknown_event_frame_spec (opts : FireOptions) (c : List FieldData)
    (m : KeyedMap) (s : DocChange)
    (h₁ : s.type ≠ "added") (h₂ : s.type ≠ "removed") (h₃ : s.type ≠ "modified") :
    applySeqEvent opts c s = c ∧ applyKeyedEvent m s = m :=
  ⟨applySeqEvent_default opts c s h₁ h₂ h₃, applyKeyedEvent_default m s h₁ h₂ h₃⟩

/-- Witness for C9: an event of unknown type leaves a concrete container and
mapping unchanged. -/
theorem unknown_event_frame_spec_witness :
    applySeqEvent defaultOptions [[("v", "A")]] ⟨"weird", 0, 0, "X", []⟩ = [[("v", "A")]] ∧
    applyKeyedEvent (fun _ => none) ⟨"weird", 0, 0, "X", []⟩ = (fun _ => none) :=
  unknown_event_frame_spec defaultOptions [[("v", "A")]] (fun _ => none)
    ⟨"weird", 0, 0, "X", []⟩ (by decide) (by decide) (by decide)

/-- C10: for a ref-wrapped source, bind returns
binding.then(res =\x3e resolve(res)).catch(err =\x3e reject(err)): an internal
rejection is routed to the caller-supplied reject callback and the returned
promise fulfills with that callback's return value, an internal fulfillment
is routed through the resolve callback, and the returned promise is never in
a rejected state. -/
theorem refwrapped_fulfills_spec {α β ε : Type} (binding : PromiseState α ε)
    (res : α → β) (rej : ε → β) (v : α) (e : ε) :
    (binding = PromiseState.rejected e →
      refWrappedReturn binding res rej = PromiseState.fulfilled (rej e)) ∧
    (binding = PromiseState.fulfilled v →
      refWrappedReturn binding res rej = PromiseState.fulfilled (res v)) ∧
    ∀ e₂ : ε, refWrappedReturn binding res rej ≠ PromiseState.rejected e₂ := by
  refine ⟨fun h => ?_, fun h => ?_, fun e₂ => ?_⟩
  · subst h; rfl
  · subst h; rfl
  · cases binding <;>
      simp [refWrappedReturn, PromiseState.thenMap, PromiseState.catchMap]

/-- Witness for C10: a rejected internal binding yields a fulfilled returned
promise carrying the reject callback's return value. -/
theorem refwrapped_fulfills_spec_witness :
    refWrappedReturn (PromiseState.rejected "boom" : PromiseState Nat String)
      (fun n => n + 1) (fun _ => 0) = PromiseState.fulfilled 0 :=
  (refwrapped_fulfills_spec (PromiseState.rejected "boom") (fun n => n + 1)
    (fun _ => 0) 7 "boom").1 rfl

end VueFirestore
